import Mathlib

/-!
Verification of the stock-data client (`src/stonks.py`) against its
specification.  The Python source is shallowly embedded: each validation /
request-construction / normalization step of `get_stock_history`,
`format_stock_df` and `get_stock_sentiment` becomes an executable Lean
definition; the HTTP call is modelled as an explicit `Effect` in a trace, and
the decoded response body is passed in as a parameter.  Python exceptions
become an `Err` sum (the source raises `ValueError` everywhere with distinct
messages; the spec classifies those raise sites as FormatError /
InvalidArgumentError / RangeError, and the constructors record the site).
-/

namespace Stonks

/-- Naive calendar timestamp, mirroring Python's `datetime` components.
Python compares datetimes lexicographically on
(year, month, day, hour, minute, second). -/
structure DateTime where
  year : Int
  month : Int
  day : Int
  hour : Int
  minute : Int
  second : Int
deriving Repr, DecidableEq

/-- A `DateTime` whose components are in calendar range (Python's `datetime`
constructor enforces this; day upper bounds by month are not needed here). -/
def DateTime.valid (d : DateTime) : Prop :=
  1 ≤ d.month ∧ d.month ≤ 12 ∧ 1 ≤ d.day ∧ d.day ≤ 31 ∧
  0 ≤ d.hour ∧ d.hour ≤ 23 ∧ 0 ≤ d.minute ∧ d.minute ≤ 59 ∧
  0 ≤ d.second ∧ d.second ≤ 59

instance (d : DateTime) : Decidable d.valid := by
  unfold DateTime.valid; infer_instance

/-- Chronological (lexicographic) order on datetimes, as Python's `<`. -/
def DateTime.ltb (a b : DateTime) : Bool :=
  if a.year ≠ b.year then decide (a.year < b.year)
  else if a.month ≠ b.month then decide (a.month < b.month)
  else if a.day ≠ b.day then decide (a.day < b.day)
  else if a.hour ≠ b.hour then decide (a.hour < b.hour)
  else if a.minute ≠ b.minute then decide (a.minute < b.minute)
  else decide (a.second < b.second)

/-! ### String parsing helpers (the `strptime` formats used by the source) -/

/-- Split a character list on a separator, like Python `str.split(sep)`
restricted to a one-character separator. -/
def splitOnChar (sep : Char) : List Char → List (List Char)
  | [] => [[]]
  | c :: rest =>
    let r := splitOnChar sep rest
    if c = sep then [] :: r
    else match r with
      | [] => [[c]]
      | g :: gs => (c :: g) :: gs

/-- Numeric value of a digit list (most significant first). -/
def digitsToNat (cs : List Char) : Nat :=
  cs.foldl (fun n c => n * 10 + (c.toNat - 48)) 0

/-- Parse a non-empty all-digit character list. -/
def parseNatDigits (cs : List Char) : Option Nat :=
  if cs ≠ [] && cs.all Char.isDigit then some (digitsToNat cs) else none

/-- `datetime.strptime(date, "%m/%Y")` (source line 26): CPython's `%m`
matches 1-2 digits with value 1..12, `%Y` matches exactly four digits
(`_strptime.py` uses the pattern of four digit classes), and the `datetime`
constructor then rejects year 0.  Returns (month, year). -/
def parseMonthYear (s : String) : Option (Int × Int) :=
  match splitOnChar '/' s.data with
  | [ms, ys] =>
    match parseNatDigits ms, parseNatDigits ys with
    | some m, some y =>
      if 1 ≤ m && m ≤ 12 && ms.length ≤ 2 && ys.length = 4 && 1 ≤ y then
        some ((m : Int), (y : Int))
      else none
    | _, _ => none
  | _ => none

/-- Days in a calendar month, with Gregorian leap years (the calendar check
performed by `pandas.to_datetime` / `datetime.strptime` / `datetime.replace`). -/
def daysInMonth (y m : Int) : Int :=
  if m = 2 then
    (if y % 4 = 0 && (y % 100 ≠ 0 || y % 400 = 0) then 29 else 28)
  else if m = 4 || m = 6 || m = 9 || m = 11 then 30
  else 31

/-- Python `d.replace(year=y)` (source line 37): `datetime.replace` re-runs
the constructor's day-of-month check against the new year and raises
`ValueError("day is out of range for month")` when the day does not fit —
which happens exactly when `d` is Feb 29 and `y` is not a leap year. -/
def replaceYear (d : DateTime) (y : Int) : Option DateTime :=
  if d.day ≤ daysInMonth y d.month then some { d with year := y } else none

/-- The pure `%Y-%m-%d %H:%M:%S` format and calendar match on one `time`
cell: a four-digit year, 1-2 digit month/day/hour/minute/second fields, a
calendar-valid date and an in-range time of day. -/
def parseTimestampRaw (s : String) : Option DateTime :=
  match splitOnChar ' ' s.data with
  | [ds, ts] =>
    match splitOnChar '-' ds, splitOnChar ':' ts with
    | [ys, ms, dds], [hs, mins, ss] =>
      match parseNatDigits ys, parseNatDigits ms, parseNatDigits dds,
            parseNatDigits hs, parseNatDigits mins, parseNatDigits ss with
      | some y, some m, some d, some hh, some mi, some sec =>
        if ys.length = 4 && ms.length ≤ 2 && dds.length ≤ 2 &&
           hs.length ≤ 2 && mins.length ≤ 2 && ss.length ≤ 2 &&
           1 ≤ m && m ≤ 12 && 1 ≤ d && (d : Int) ≤ daysInMonth y m &&
           hh ≤ 23 && mi ≤ 59 && sec ≤ 59 then
          some ⟨(y : Int), (m : Int), (d : Int), (hh : Int), (mi : Int), (sec : Int)⟩
        else none
      | _, _, _, _, _, _ => none
    | _, _ => none
  | _ => none

/-- `pandas.Timestamp.min` (1677-09-21 00:12:43.145224193) rounded up to the
next whole second: the least second-resolution instant pandas can represent
as a nanosecond timestamp. -/
def pandasTsMin : DateTime := ⟨1677, 9, 21, 0, 12, 44⟩

/-- `pandas.Timestamp.max` (2262-04-11 23:47:16.854775807) truncated to
whole seconds: the greatest second-resolution instant pandas can represent. -/
def pandasTsMax : DateTime := ⟨2262, 4, 11, 23, 47, 16⟩

/-- Whether pandas can represent the instant as a nanosecond timestamp;
outside this window `pd.to_datetime` raises `OutOfBoundsDatetime`. -/
def inPandasBounds (t : DateTime) : Bool :=
  !(DateTime.ltb t pandasTsMin) && !(DateTime.ltb pandasTsMax t)

/-- `pd.to_datetime(..., format="%Y-%m-%d %H:%M:%S")` on one cell (source
line 75): the format and calendar match, then the nanosecond-timestamp
range check. -/
def parseTimestamp (s : String) : Option DateTime :=
  match parseTimestampRaw s with
  | some t => if inPandasBounds t then some t else none
  | none => none

/-- `datetime.strptime(t, "%Y-%m-%d")` (source lines 133/136): `%Y` is
exactly four digits and the `datetime` constructor rejects year 0;
time-of-day defaults to midnight. -/
def parseDateYMD (s : String) : Option DateTime :=
  match splitOnChar '-' s.data with
  | [ys, ms, ds] =>
    match parseNatDigits ys, parseNatDigits ms, parseNatDigits ds with
    | some y, some m, some d =>
      if ys.length = 4 && 1 ≤ y && ms.length ≤ 2 && ds.length ≤ 2 &&
         1 ≤ m && m ≤ 12 && 1 ≤ d && (d : Int) ≤ daysInMonth y m then
        some ⟨(y : Int), (m : Int), (d : Int), 0, 0, 0⟩
      else none
    | _, _, _ => none
  | _ => none

/-- The mantissa of a numeral: `digits`, `digits.digits`, `digits.` or
`.digits`.  Returns the digit value with the decimal point dropped and the
number of fractional digits. -/
def parseMantissa (cs : List Char) : Option (Nat × Nat) :=
  match splitOnChar '.' cs with
  | [w] =>
    if w ≠ [] && w.all Char.isDigit then some (digitsToNat w, 0) else none
  | [w, f] =>
    if w = [] && f = [] then none
    else if w.all Char.isDigit && f.all Char.isDigit then
      some (digitsToNat (w ++ f), f.length)
    else none
  | _ => none

/-- An optionally signed exponent, as in `1e-5`. -/
def parseExp (cs : List Char) : Option Int :=
  match cs with
  | '-' :: rest => (parseNatDigits rest).map (fun n => -(n : Int))
  | '+' :: rest => (parseNatDigits rest).map (fun n => (n : Int))
  | _ => (parseNatDigits cs).map (fun n => (n : Int))

/-- The numeric-cell conversion shared by `float(s)`, `pandas.read_csv`'s
column inference and `astype`: an optionally signed plain or scientific
ASCII numeral, e.g. `129.99`, `-3.`, `.5`, `1e5`, `2.5E-3`.  The value is
modelled exactly over ℚ.  Cells outside this grammar's intended domain —
pandas NA sentinels, infinities and NaNs, numerals with underscores,
whitespace padding or non-ASCII digits, and magnitudes overflowing float64
or int64 — are fenced off by `rowInModelDomain` in the table-level theorems. -/
def parseDecimal (s : String) : Option ℚ :=
  let signed : Int × List Char :=
    match s.data with
    | '-' :: rest => (-1, rest)
    | '+' :: rest => (1, rest)
    | cs => (1, cs)
  let lowered := signed.2.map (fun c => if c = 'E' then 'e' else c)
  match splitOnChar 'e' lowered with
  | [mant] =>
    match parseMantissa mant with
    | some (d, lf) => some (mkRat (signed.1 * d) (10 ^ lf))
    | none => none
  | [mant, ex] =>
    match parseMantissa mant, parseExp ex with
    | some (d, lf), some e =>
      let k := e - (lf : Int)
      if 0 ≤ k then some (mkRat (signed.1 * d * 10 ^ k.toNat) 1)
      else some (mkRat (signed.1 * d) (10 ^ (-k).toNat))
    | _, _ => none
  | _ => none

/-- The volume-cell coercion: `read_csv` turns an all-numeric column into
floats (or ints), and `astype({"volume": int})` then truncates toward zero;
on a column left as strings, `int(s)` agrees on the model's domain.  So a
cell convertible as a finite numeral yields its value truncated toward
zero, and any other cell fails the conversion. -/
def parseVolume (s : String) : Option Int :=
  (parseDecimal s).map (fun q => q.num.tdiv (q.den : Int))

/-! ### Error and effect model -/

/-- The distinct raise sites of the source (all `ValueError` in Python; the
spec names their kinds).  `invalidTopics` records the list that the source
interpolates into its message (`f"Topics must be in valid topics: {VALID_TOPICS}"`);
`libraryErr` is a `ValueError` raised inside a library call the source does
not catch (`datetime.replace` on line 37). -/
inductive Err where
  | formatErr (msg : String)
  | invalidArg (msg : String)
  | rangeErr (msg : String)
  | invalidTopics (named : List String)
  | libraryErr (msg : String)
deriving Repr, DecidableEq

/-- Error kinds of the spec's error taxonomy that arise from argument
validation by value (interval / topic / sort / limit / emptiness). -/
def Err.isInvalidArgKind : Err → Bool
  | .invalidArg _ => true
  | .invalidTopics _ => true
  | _ => false

/-- Observable side effects: the single HTTP GET each builder issues. -/
inductive Effect where
  | httpGet (url : String)
deriving Repr, DecidableEq

def API_ENDPOINT : String := "https://www.alphavantage.co/query"

/-- The process-wide credential (`os.environ.get`); its value is irrelevant
to every property proved here. -/
def API_KEY : String := "KEY"

/-! ### History path: `get_stock_history` (source lines 11-66) -/

/-- Source line 31. -/
def intervalWhitelist : List String := ["1min", "5min", "15min", "30min", "60min"]

/-- `(current_date.year - date_obj.year) * 12 + (current_date.month - date_obj.month)`
(source lines 42-46): how many whole months the target month lies before the
current month. -/
def monthsBack (now : DateTime) (m y : Int) : Int :=
  (now.year - y) * 12 + (now.month - m)

/-- The Slice Calculator (source lines 47-48):
`slice_year = (slice_value - 1) // 12 + 1`, `slice_month = (slice_value - 1) % 12 + 1`
with Python floor division and nonnegative remainder (`Int.fdiv` / `Int.emod`
agree with Python `//` / `%` for the positive divisor 12). -/
def sliceOf (tmb : Int) : Int × Int :=
  ((tmb - 1).fdiv 12 + 1, (tmb - 1).emod 12 + 1)

/-- `f"year{slice_year}month{slice_month}"` (source line 49). -/
def sliceStr (tmb : Int) : String :=
  let a := (sliceOf tmb).1
  let b := (sliceOf tmb).2
  s!"year{a}month{b}"

/-- The request URL of source line 52. -/
def historyUrl (ticker interval : String) (tmb : Int) : String :=
  API_ENDPOINT ++ "?function=TIME_SERIES_INTRADAY_EXTENDED&symbol=" ++ ticker ++
    "&interval=" ++ interval ++ "&slice=" ++ sliceStr tmb ++ "&apikey=" ++ API_KEY

/-- The validation phase of `get_stock_history` (source lines 24-49), in the
source's order: strict date parse, interval whitelist, then the range check
of line 37, `date_obj > datetime.now() or date_obj < datetime.now().replace(year=datetime.now().year - 2)`,
where `date_obj` is the first of the target month at midnight.  Python's
`or` short-circuits: a future month raises the range error before `replace`
runs, and otherwise `replace` itself can raise (current date Feb 29).  On
success it returns the months-back count fed to the Slice Calculator. -/
def historyValidate (date interval : String) (now : DateTime) : Except Err Int :=
  match parseMonthYear date with
  | none => .error (.formatErr "Date must be in the form of MM/YYYY")
  | some (m, y) =>
    if !(intervalWhitelist.contains interval) then
      .error (.invalidArg "Interval must be one of 1min, 5min, 15min, 30min, or 60min")
    else
      let dateObj : DateTime := ⟨y, m, 1, 0, 0, 0⟩
      if DateTime.ltb now dateObj then
        .error (.rangeErr "Date must be within the last 2 years and not a future date")
      else
        match replaceYear now (now.year - 2) with
        | none => .error (.libraryErr "day is out of range for month")
        | some cutoff =>
          if DateTime.ltb dateObj cutoff then
            .error (.rangeErr "Date must be within the last 2 years and not a future date")
          else
            .ok (monthsBack now m y)

/-- One row of the decoded tabular response body, all fields as the raw text
of the delimited file (header `time,open,high,low,close,volume`). -/
structure RawRow where
  time : String
  open_ : String
  high : String
  low : String
  close : String
  volume : String
deriving Repr, DecidableEq

/-- One normalized OHLCV bar, keyed by its parsed timestamp. -/
structure PriceBar where
  timestamp : DateTime
  open_ : ℚ
  high : ℚ
  low : ℚ
  close : ℚ
  volume : Int
deriving Repr, DecidableEq

/-- One row through `format_stock_df`: parse the `time` cell with the fixed
format, drop the raw column, coerce prices to float and volume to int. -/
def formatRow (r : RawRow) : Option PriceBar :=
  match parseTimestamp r.time, parseDecimal r.open_, parseDecimal r.high,
        parseDecimal r.low, parseDecimal r.close, parseVolume r.volume with
  | some t, some o, some h, some l, some c, some v => some ⟨t, o, h, l, c, v⟩
  | _, _, _, _, _, _ => none

/-- All rows through `formatRow`, failing as soon as one cell fails. -/
def formatRows : List RawRow → Option (List PriceBar)
  | [] => some []
  | r :: rs =>
    match formatRow r, formatRows rs with
    | some b, some bs => some (b :: bs)
    | _, _ => none

/-- `format_stock_df` (source lines 68-78): `pd.to_datetime` and `astype`
raise on the first unparseable cell, so the whole table normalizes only when
every row does. -/
def format_stock_df (rows : List RawRow) : Except Err (List PriceBar) :=
  match formatRows rows with
  | some bars => .ok bars
  | none => .error (.formatErr "time or numeric field does not match the expected format")

/-- `df.between_time("9:30", "16:00")` membership (source line 64): pandas
keeps rows whose time of day is within the window, both ends inclusive. -/
def inMarketHours (b : PriceBar) : Bool :=
  let t := b.timestamp.hour * 3600 + b.timestamp.minute * 60 + b.timestamp.second
  decide (9 * 3600 + 30 * 60 ≤ t) && decide (t ≤ 16 * 3600)

/-- `get_stock_history` end to end: validation, then the HTTP GET (recorded
as an effect; `response` stands for the decoded body it returns), then
normalization and the optional market-hours filter.  A validation failure
returns before the effect list gains the GET. -/
def get_stock_history (ticker date interval : String) (after_hours : Bool)
    (now : DateTime) (response : List RawRow) :
    List Effect × Except Err (List PriceBar) :=
  match historyValidate date interval now with
  | .error e => ([], .error e)
  | .ok tmb =>
    let url := historyUrl ticker interval tmb
    match format_stock_df response with
    | .error e => ([.httpGet url], .error e)
    | .ok df => ([.httpGet url], .ok (if after_hours then df else df.filter inMarketHours))

/-! ### Sentiment path: `get_stock_sentiment` (source lines 80-163) -/

/-- Source lines 103-118. -/
def VALID_TOPICS : List String :=
  ["blockchain", "earnings", "ipo", "mergers_and_acquisitions",
   "financial_markets", "economy_fiscal", "economy_monetary", "economy_macro",
   "finance", "life_sciences", "manufacturing", "real_estate",
   "retail_wholesale", "technology"]

/-- Source line 126. -/
def sortWhitelist : List String := ["EARLIEST", "LATEST", "RELEVANCE"]

/-- `",".join(xs)` (source lines 138-139). -/
def joinComma : List String → String
  | [] => ""
  | [x] => x
  | x :: xs => x ++ "," ++ joinComma xs

/-- Zero-padded rendering for `strftime` fields `%m %d %H %M`. -/
def pad2 (n : Int) : String :=
  if n < 10 then "0" ++ toString n else toString n

/-- Zero-padded rendering for `strftime` field `%Y`. -/
def pad4 (n : Int) : String :=
  if n < 10 then "000" ++ toString n
  else if n < 100 then "00" ++ toString n
  else if n < 1000 then "0" ++ toString n
  else toString n

/-- `strftime("%Y%m%dT%H%M")` (source lines 133/136). -/
def wireTimestamp (d : DateTime) : String :=
  pad4 d.year ++ pad2 d.month ++ pad2 d.day ++ "T" ++ pad2 d.hour ++ pad2 d.minute

/-- Source lines 132-136 for one optional bound: a falsy (absent or empty)
value is left alone and later omitted from the URL; a truthy one must parse
as `%Y-%m-%d` and is reformatted to the wire format. -/
def wireDate (o : Option String) : Except Err (Option String) :=
  match o with
  | none => .ok none
  | some t =>
    if t = "" then .ok none
    else
      match parseDateYMD t with
      | some d => .ok (some (wireTimestamp d))
      | none => .error (.formatErr "time data does not match format %Y-%m-%d")

/-- Truthiness test of `if sort and sort not in [...]` (source line 126). -/
def sortInvalid (sort : Option String) : Bool :=
  match sort with
  | none => false
  | some s => !(s = "") && !(sortWhitelist.contains s)

/-- The query parameters of the URL built on source lines 141-158, in append
order; each entry renders as `&name=value`. -/
def sentimentParams (tickers topics : List String) (tf2 tt2 : Option String)
    (sort : Option String) (limit : Int) : List (String × String) :=
  [("function", "NEWS_SENTIMENT"), ("apikey", API_KEY)]
  ++ (if topics.isEmpty then [] else [("topics", joinComma topics)])
  ++ (if tickers.isEmpty then [] else [("tickers", joinComma tickers)])
  ++ (match sort with
      | some s => if s = "" then [] else [("sort", s)]
      | none => [])
  ++ (match tf2 with | some t => [("time_from", t)] | none => [])
  ++ (match tt2 with | some t => [("time_to", t)] | none => [])
  ++ [("limit", toString limit)]

/-- `&`-separated concatenation of rendered parameters. -/
def joinAmp : List String → String
  | [] => ""
  | [x] => x
  | x :: xs => x ++ "&" ++ joinAmp xs

/-- Render the parameter list as the query string the source concatenates. -/
def renderParams (ps : List (String × String)) : String :=
  API_ENDPOINT ++ "?" ++ joinAmp (ps.map (fun p => p.1 ++ "=" ++ p.2))

/-- The pre-GET portion of `get_stock_sentiment` (source lines 100-158):
the four validation checks in source order, then the optional time-bound
parses, then the query parameters. -/
def sentimentBuild (tickers topics : List String) (time_from time_to : Option String)
    (sort : Option String) (limit : Int) : Except Err (List (String × String)) :=
  if tickers.isEmpty && topics.isEmpty then
    .error (.invalidArg "At least one ticker or topic must be provided")
  else if !topics.isEmpty && !(topics.all (fun t => VALID_TOPICS.contains t)) then
    .error (.invalidTopics VALID_TOPICS)
  else if sortInvalid sort then
    .error (.invalidArg "Sort must be EARLIEST, LATEST, or RELEVANCE")
  else if decide (limit > 200) then
    .error (.invalidArg "Limit must be less than or equal to 200")
  else
    match wireDate time_from with
    | .error e => .error e
    | .ok tf2 =>
      match wireDate time_to with
      | .error e => .error e
      | .ok tt2 => .ok (sentimentParams tickers topics tf2 tt2 sort limit)

/-- `get_stock_sentiment` end to end: validation and URL construction, then
the single GET (recorded as an effect).  The decoded JSON body is opaque to
this system, so the result carries the constructed query parameters. -/
def get_stock_sentiment (tickers topics : List String)
    (time_from time_to : Option String) (sort : Option String) (limit : Int) :
    List Effect × Except Err (List (String × String)) :=
  match sentimentBuild tickers topics time_from time_to sort limit with
  | .error e => ([], .error e)
  | .ok ps => ([.httpGet (renderParams ps)], .ok ps)

/-! ### Supporting lemmas -/

deriving instance DecidableEq for Except

/-- Unfolding of the chronological order into arithmetic on components. -/
lemma ltb_iff (a b : DateTime) :
    DateTime.ltb a b = true ↔
      (a.year < b.year ∨ (a.year = b.year ∧
        (a.month < b.month ∨ (a.month = b.month ∧
          (a.day < b.day ∨ (a.day = b.day ∧
            (a.hour < b.hour ∨ (a.hour = b.hour ∧
              (a.minute < b.minute ∨ (a.minute = b.minute ∧
                a.second < b.second)))))))))) := by
  unfold DateTime.ltb
  split_ifs <;> simp_all

/-- A successfully parsed `MM/YYYY` string has a month in 1..12 and a
nonnegative year. -/
lemma parseMonthYear_bounds {s : String} {m y : Int}
    (h : parseMonthYear s = some (m, y)) : 1 ≤ m ∧ m ≤ 12 ∧ 0 ≤ y := by
  unfold parseMonthYear at h
  split at h
  · split at h
    · split at h
      · rename_i hcond
        simp only [Bool.and_eq_true, decide_eq_true_eq] at hcond
        simp only [Option.some.injEq, Prod.mk.injEq] at h
        obtain ⟨hm, hy⟩ := h
        subst hm; subst hy
        omega
      · simp at h
    · simp at h
  · simp at h

/-- The first half of the range check of source line 37
(`date_obj > now`), spelled out on datetime components. -/
lemma ltb_dateObj_iff (now : DateTime) (m y : Int) :
    DateTime.ltb now ⟨y, m, 1, 0, 0, 0⟩ = true ↔
      (now.year < y ∨ (now.year = y ∧ (now.month < m ∨ (now.month = m ∧
        (now.day < 1 ∨ (now.day = 1 ∧ (now.hour < 0 ∨ (now.hour = 0 ∧
          (now.minute < 0 ∨ (now.minute = 0 ∧ now.second < 0)))))))))) := by
  simp only [ltb_iff]

/-- The second half of the range check of source line 37
(`date_obj < now.replace(year=now.year - 2)`), spelled out on components. -/
lemma ltb_cutoff_iff (now : DateTime) (m y : Int) :
    DateTime.ltb ⟨y, m, 1, 0, 0, 0⟩ { now with year := now.year - 2 } = true ↔
      (y < now.year - 2 ∨ (y = now.year - 2 ∧ (m < now.month ∨ (m = now.month ∧
        (1 < now.day ∨ (1 = now.day ∧ (0 < now.hour ∨ (0 = now.hour ∧
          (0 < now.minute ∨ (0 = now.minute ∧ 0 < now.second)))))))))) := by
  simp only [ltb_iff]

/-- Once the date has parsed and the interval is whitelisted, the validation
phase is exactly the short-circuiting range check of line 37. -/
lemma historyValidate_eq_of_parse {date interval : String} {now : DateTime} {m y : Int}
    (hdate : parseMonthYear date = some (m, y))
    (hint : intervalWhitelist.contains interval = true) :
    historyValidate date interval now =
      if DateTime.ltb now ⟨y, m, 1, 0, 0, 0⟩ then
        .error (.rangeErr "Date must be within the last 2 years and not a future date")
      else
        match replaceYear now (now.year - 2) with
        | none => .error (.libraryErr "day is out of range for month")
        | some cutoff =>
          if DateTime.ltb ⟨y, m, 1, 0, 0, 0⟩ cutoff then
            .error (.rangeErr "Date must be within the last 2 years and not a future date")
          else .ok (monthsBack now m y) := by
  unfold historyValidate
  rw [hdate, hint]
  rfl

/-- The same, once `replace` is known to succeed and the month is not in
the future. -/
lemma historyValidate_eq_of_replace {date interval : String} {now : DateTime}
    {m y : Int} {cutoff : DateTime}
    (hdate : parseMonthYear date = some (m, y))
    (hint : intervalWhitelist.contains interval = true)
    (hnf : DateTime.ltb now ⟨y, m, 1, 0, 0, 0⟩ = false)
    (hrep : replaceYear now (now.year - 2) = some cutoff) :
    historyValidate date interval now =
      if DateTime.ltb ⟨y, m, 1, 0, 0, 0⟩ cutoff then
        .error (.rangeErr "Date must be within the last 2 years and not a future date")
      else .ok (monthsBack now m y) := by
  rw [historyValidate_eq_of_parse hdate hint, hnf, hrep]
  rfl

/-- The same, when `replace` raises (the current date is Feb 29). -/
lemma historyValidate_eq_crash {date interval : String} {now : DateTime} {m y : Int}
    (hdate : parseMonthYear date = some (m, y))
    (hint : intervalWhitelist.contains interval = true)
    (hnf : DateTime.ltb now ⟨y, m, 1, 0, 0, 0⟩ = false)
    (hrep : replaceYear now (now.year - 2) = none) :
    historyValidate date interval now =
      .error (.libraryErr "day is out of range for month") := by
  rw [historyValidate_eq_of_parse hdate hint, hnf, hrep]
  rfl

/-- The only errors the optional time bounds can produce are format errors. -/
lemma wireDate_error {o : Option String} {e : Err}
    (h : wireDate o = .error e) : ∃ msg, e = .formatErr msg := by
  unfold wireDate at h
  split at h
  · cases h
  · split at h
    · cases h
    · split at h
      · cases h
      · cases h
        exact ⟨_, rfl⟩

/-- Bridge: the emptiness check of source line 100. -/
lemma bothEmpty_iff (tickers topics : List String) :
    (tickers.isEmpty && topics.isEmpty) = true ↔ (tickers = [] ∧ topics = []) := by
  simp [List.isEmpty_iff]

/-- Bridge: the topic vocabulary check of source lines 122-124. -/
lemma badTopic_iff (topics : List String) :
    (!topics.isEmpty && !(topics.all fun t => VALID_TOPICS.contains t)) = true ↔
      ∃ t ∈ topics, t ∉ VALID_TOPICS := by
  cases topics with
  | nil => simp
  | cons t ts => simp [List.all_eq_true]

/-- Bridge: the sort check of source line 126. -/
lemma sortInvalid_iff (sort : Option String) :
    sortInvalid sort = true ↔ ∃ s, sort = some s ∧ s ≠ "" ∧ s ∉ sortWhitelist := by
  cases sort with
  | none => simp [sortInvalid]
  | some s => simp [sortInvalid]

/-! ### Claim theorems -/

/-- C1 (counterexample).  At totalMonthsBack = 0 — reachable, e.g. asking for
the current month 10/2026 on 2026-10-12 — the Slice Calculator yields
(yearIndex, monthIndex) = (0, 12), not (1, 1) as the claim states, and
yearIndex ≥ 1 fails. -/
theorem C1_counterexample :
    monthsBack ⟨2026, 10, 12, 0, 0, 0⟩ 10 2026 = 0 ∧
    historyValidate "10/2026" "1min" ⟨2026, 10, 12, 0, 0, 0⟩ = .ok 0 ∧
    sliceOf 0 = (0, 12) ∧ sliceOf 0 ≠ (1, 1) ∧ ¬ (1 ≤ (sliceOf 0).1) ∧
    sliceStr 0 = "year0month12" := by decide

/-- C1 (amended).  For every target whose totalMonthsBack lies in 1..24 the
Slice Calculator returns yearIndex = (totalMonthsBack - 1) floor-div 12 + 1
and monthIndex = (totalMonthsBack - 1) mod 12 + 1, satisfying
1 ≤ monthIndex ≤ 12 and yearIndex ≥ 1, as a pure function of its inputs;
totalMonthsBack = 0 (the current month) instead yields slice (0, 12). -/
theorem C1_amended_slice_bounds (tmb : Int) (h1 : 1 ≤ tmb) (h2 : tmb ≤ 24) :
    (sliceOf tmb).1 = (tmb - 1).fdiv 12 + 1 ∧
    (sliceOf tmb).2 = (tmb - 1).emod 12 + 1 ∧
    1 ≤ (sliceOf tmb).1 ∧ 1 ≤ (sliceOf tmb).2 ∧ (sliceOf tmb).2 ≤ 12 ∧
    sliceOf 0 = (0, 12) := by
  refine ⟨rfl, rfl, ?_, ?_, ?_, by decide⟩ <;> (interval_cases tmb <;> decide)

/-- Witness for C1 (amended): a month 13 months back gets a valid slice. -/
theorem C1_amended_slice_bounds_witness :
    1 ≤ (sliceOf 13).1 ∧ 1 ≤ (sliceOf 13).2 ∧ (sliceOf 13).2 ≤ 12 := by
  have h := C1_amended_slice_bounds 13 (by decide) (by decide)
  exact ⟨h.2.2.1, h.2.2.2.1, h.2.2.2.2.1⟩

/-- C2 (counterexample).  On 2026-10-12 the month 10/2024 lies exactly 24
whole months back, yet the range check of `get_stock_history` rejects it —
the claim says a month exactly 24 months back is always accepted,
independent of the current day of month. -/
theorem C2_counterexample :
    monthsBack ⟨2026, 10, 12, 0, 0, 0⟩ 10 2024 = 24 ∧
    historyValidate "10/2024" "1min" ⟨2026, 10, 12, 0, 0, 0⟩ =
      .error (.rangeErr "Date must be within the last 2 years and not a future date") := by
  decide

/-- C2 (amended).  The range step compares full datetimes and Python's
`or` short-circuits, so for a parsed date and whitelisted interval:
a future month raises RangeError; otherwise, if the current day of month
exceeds the length of the current month two calendar years earlier (i.e.
the current instant is a Feb 29), `datetime.replace` raises an unhandled
`ValueError("day is out of range for month")` for every non-future month;
otherwise the current month and months 1..23 back are accepted, a month
exactly 24 back is accepted only when the current instant is exactly the
first of its month at midnight (RangeError otherwise — so the 24-month
boundary depends on the current day), and months 25 or more back raise
RangeError. -/
theorem C2_amended_range_window (now : DateTime) (m y : Int)
    (date interval : String)
    (hv : now.valid) (hm1 : 1 ≤ m) (hm2 : m ≤ 12)
    (hdate : parseMonthYear date = some (m, y))
    (hint : intervalWhitelist.contains interval = true) :
    (monthsBack now m y < 0 →
      historyValidate date interval now =
        .error (.rangeErr "Date must be within the last 2 years and not a future date")) ∧
    (0 ≤ monthsBack now m y → daysInMonth (now.year - 2) now.month < now.day →
      historyValidate date interval now =
        .error (.libraryErr "day is out of range for month")) ∧
    (now.day ≤ daysInMonth (now.year - 2) now.month →
      (0 ≤ monthsBack now m y → monthsBack now m y ≤ 23 →
        historyValidate date interval now = .ok (monthsBack now m y)) ∧
      (monthsBack now m y = 24 →
        historyValidate date interval now =
          (if now.day = 1 ∧ now.hour = 0 ∧ now.minute = 0 ∧ now.second = 0 then
            .ok 24
          else
            .error (.rangeErr "Date must be within the last 2 years and not a future date"))) ∧
      (25 ≤ monthsBack now m y →
        historyValidate date interval now =
          .error (.rangeErr "Date must be within the last 2 years and not a future date"))) := by
  obtain ⟨a1, a2, a3, a4, a5, a6, a7, a8, a9, a10⟩ := hv
  refine ⟨?_, ?_, fun hday => ⟨?_, ?_, ?_⟩⟩
  · intro h
    simp only [monthsBack] at h
    rw [historyValidate_eq_of_parse hdate hint,
      if_pos ((ltb_dateObj_iff now m y).mpr (by omega))]
  · intro h hday
    simp only [monthsBack] at h
    have hnf : DateTime.ltb now ⟨y, m, 1, 0, 0, 0⟩ = false := by
      rw [Bool.eq_false_iff, Ne, ltb_dateObj_iff]
      omega
    have hrep : replaceYear now (now.year - 2) = none := by
      unfold replaceYear
      rw [if_neg (by omega)]
    exact historyValidate_eq_crash hdate hint hnf hrep
  all_goals
    have hrep : replaceYear now (now.year - 2) = some { now with year := now.year - 2 } := by
      unfold replaceYear
      rw [if_pos hday]
  · intro h0 h23
    simp only [monthsBack] at h0 h23
    have hnf : DateTime.ltb now ⟨y, m, 1, 0, 0, 0⟩ = false := by
      rw [Bool.eq_false_iff, Ne, ltb_dateObj_iff]
      omega
    rw [historyValidate_eq_of_replace hdate hint hnf hrep,
      if_neg (by rw [ltb_cutoff_iff]; omega)]
  · intro h24
    have h24m := h24
    simp only [monthsBack] at h24m
    have hnf : DateTime.ltb now ⟨y, m, 1, 0, 0, 0⟩ = false := by
      rw [Bool.eq_false_iff, Ne, ltb_dateObj_iff]
      omega
    rw [historyValidate_eq_of_replace hdate hint hnf hrep]
    by_cases hmid : now.day = 1 ∧ now.hour = 0 ∧ now.minute = 0 ∧ now.second = 0
    · rw [if_pos hmid, if_neg (by rw [ltb_cutoff_iff]; omega), h24]
    · rw [if_neg hmid, if_pos (by rw [ltb_cutoff_iff]; omega)]
  · intro h25
    simp only [monthsBack] at h25
    have hnf : DateTime.ltb now ⟨y, m, 1, 0, 0, 0⟩ = false := by
      rw [Bool.eq_false_iff, Ne, ltb_dateObj_iff]
      omega
    rw [historyValidate_eq_of_replace hdate hint hnf hrep,
      if_pos (by rw [ltb_cutoff_iff]; omega)]

/-- Witness for C2 (amended): on 2026-10-12, the month 10/2025 (12 months
back) is accepted. -/
theorem C2_amended_range_window_witness :
    historyValidate "10/2025" "1min" ⟨2026, 10, 12, 0, 0, 0⟩ = .ok 12 :=
  ((C2_amended_range_window ⟨2026, 10, 12, 0, 0, 0⟩ 10 2025 "10/2025" "1min"
    (by decide) (by decide) (by decide) (by decide) (by decide)).2.2
    (by decide)).1 (by decide) (by decide)

/-- C5 (counterexample).  On 2024-02-29 at 12:00 the month 01/2022 lies 25
whole months back — outside the 0..24 window — yet `get_stock_history`
raises `datetime.replace`'s ValueError "day is out of range for month"
rather than the RangeError the claim's third step requires: the date parse
and interval checks pass, and `now.replace(year=2022)` raises because 2022
is not a leap year. -/
theorem C5_counterexample :
    monthsBack ⟨2024, 2, 29, 12, 0, 0⟩ 1 2022 = 25 ∧
    historyValidate "01/2022" "1min" ⟨2024, 2, 29, 12, 0, 0⟩ =
      .error (.libraryErr "day is out of range for month") ∧
    historyValidate "01/2022" "1min" ⟨2024, 2, 29, 12, 0, 0⟩ ≠
      .error (.rangeErr "Date must be within the last 2 years and not a future date") := by
  decide

/-- C5 (amended).  `get_stock_history` validates fail-fast in source order,
each step raising its distinct error: a string that does not strictly parse
as MM/YYYY (e.g. "13/2024") raises the format error whatever the interval
and range; a well-formed date with a non-whitelisted interval (e.g. "2min")
raises the invalid-argument error whatever the range; then a future month
raises the range error, and a month more than 24 back raises the range
error unless the current day of month exceeds the length of the current
month two years earlier (a Feb 29), in which case every non-future month
raises `datetime.replace`'s "day is out of range for month" ValueError
instead.  Earlier-check failures shadow later ones. -/
theorem C5_validation_order (date interval : String) (now : DateTime) (hv : now.valid) :
    (parseMonthYear date = none →
      historyValidate date interval now =
        .error (.formatErr "Date must be in the form of MM/YYYY")) ∧
    (∀ m y, parseMonthYear date = some (m, y) →
      intervalWhitelist.contains interval = false →
      historyValidate date interval now =
        .error (.invalidArg "Interval must be one of 1min, 5min, 15min, 30min, or 60min")) ∧
    (∀ m y, parseMonthYear date = some (m, y) →
      intervalWhitelist.contains interval = true →
      monthsBack now m y < 0 →
      historyValidate date interval now =
        .error (.rangeErr "Date must be within the last 2 years and not a future date")) ∧
    (∀ m y, parseMonthYear date = some (m, y) →
      intervalWhitelist.contains interval = true →
      24 < monthsBack now m y → now.day ≤ daysInMonth (now.year - 2) now.month →
      historyValidate date interval now =
        .error (.rangeErr "Date must be within the last 2 years and not a future date")) ∧
    (∀ m y, parseMonthYear date = some (m, y) →
      intervalWhitelist.contains interval = true →
      0 ≤ monthsBack now m y → daysInMonth (now.year - 2) now.month < now.day →
      historyValidate date interval now =
        .error (.libraryErr "day is out of range for month")) ∧
    (historyValidate "13/2024" interval now =
      .error (.formatErr "Date must be in the form of MM/YYYY")) ∧
    (historyValidate "01/2024" "2min" now =
      .error (.invalidArg "Interval must be one of 1min, 5min, 15min, 30min, or 60min")) := by
  obtain ⟨a1, a2, a3, a4, a5, a6, a7, a8, a9, a10⟩ := hv
  refine ⟨?_, ?_, ?_, ?_, ?_, rfl, rfl⟩
  · intro h
    unfold historyValidate
    rw [h]
  · intro m y hdate hint
    unfold historyValidate
    rw [hdate, hint]
    rfl
  · intro m y hdate hint hout
    obtain ⟨hm1, hm2, _⟩ := parseMonthYear_bounds hdate
    simp only [monthsBack] at hout
    rw [historyValidate_eq_of_parse hdate hint,
      if_pos ((ltb_dateObj_iff now m y).mpr (by omega))]
  · intro m y hdate hint hout hday
    obtain ⟨hm1, hm2, _⟩ := parseMonthYear_bounds hdate
    simp only [monthsBack] at hout
    have hnf : DateTime.ltb now ⟨y, m, 1, 0, 0, 0⟩ = false := by
      rw [Bool.eq_false_iff, Ne, ltb_dateObj_iff]
      omega
    have hrep : replaceYear now (now.year - 2) = some { now with year := now.year - 2 } := by
      unfold replaceYear
      rw [if_pos hday]
    rw [historyValidate_eq_of_replace hdate hint hnf hrep,
      if_pos (by rw [ltb_cutoff_iff]; omega)]
  · intro m y hdate hint hout hday
    obtain ⟨hm1, hm2, _⟩ := parseMonthYear_bounds hdate
    simp only [monthsBack] at hout
    have hnf : DateTime.ltb now ⟨y, m, 1, 0, 0, 0⟩ = false := by
      rw [Bool.eq_false_iff, Ne, ltb_dateObj_iff]
      omega
    have hrep : replaceYear now (now.year - 2) = none := by
      unfold replaceYear
      rw [if_neg (by omega)]
    exact historyValidate_eq_crash hdate hint hnf hrep

/-- Witness for C5 (amended): on 2026-10-12 the future month 05/2031 raises
the range error, with date and interval valid. -/
theorem C5_validation_order_witness :
    historyValidate "05/2031" "1min" ⟨2026, 10, 12, 0, 0, 0⟩ =
      .error (.rangeErr "Date must be within the last 2 years and not a future date") :=
  (C5_validation_order "05/2031" "1min" ⟨2026, 10, 12, 0, 0, 0⟩
    (by decide)).2.2.1 5 2031 (by decide) (by decide) (by decide)

/-- C4 (confirmed).  With includeAfterHours = false the history pipeline
keeps exactly the normalized bars whose time of day lies in the inclusive
window [09:30, 16:00] of the bar's own timestamp; the single example row
with time 2021-01-04 20:00:00 yields an empty result with
includeAfterHours = false, and with includeAfterHours = true yields the one
bar with open = high = low = close = 129.99 and volume = 100. -/
theorem C4_market_hours_filter (ticker date interval : String) (now : DateTime)
    (response : List RawRow) (tmb : Int) (bars : List PriceBar)
    (hval : historyValidate date interval now = .ok tmb)
    (hfmt : format_stock_df response = .ok bars) :
    (get_stock_history ticker date interval false now response).2 =
      .ok (bars.filter inMarketHours) ∧
    (∀ b, b ∈ bars.filter inMarketHours ↔ (b ∈ bars ∧
      9 * 3600 + 30 * 60 ≤
        b.timestamp.hour * 3600 + b.timestamp.minute * 60 + b.timestamp.second ∧
      b.timestamp.hour * 3600 + b.timestamp.minute * 60 + b.timestamp.second ≤
        16 * 3600)) ∧
    (get_stock_history ticker date interval true now response).2 = .ok bars ∧
    (get_stock_history "AAPL" "01/2021" "1min" false ⟨2021, 2, 15, 10, 0, 0⟩
      [⟨"2021-01-04 20:00:00", "129.99", "129.99", "129.99", "129.99", "100"⟩]).2 =
      .ok [] ∧
    (get_stock_history "AAPL" "01/2021" "1min" true ⟨2021, 2, 15, 10, 0, 0⟩
      [⟨"2021-01-04 20:00:00", "129.99", "129.99", "129.99", "129.99", "100"⟩]).2 =
      .ok [⟨⟨2021, 1, 4, 20, 0, 0⟩, mkRat 12999 100, mkRat 12999 100,
        mkRat 12999 100, mkRat 12999 100, 100⟩] := by
  refine ⟨?_, ?_, ?_, by decide, by decide⟩
  · simp only [get_stock_history, hval, hfmt]
    rfl
  · intro b
    simp [List.mem_filter, inMarketHours]
  · simp only [get_stock_history, hval, hfmt]
    rfl

/-- Witness for C4: the example row from the spec, end to end. -/
theorem C4_market_hours_filter_witness :
    (get_stock_history "AAPL" "01/2021" "1min" false ⟨2021, 2, 15, 10, 0, 0⟩
      [⟨"2021-01-04 20:00:00", "129.99", "129.99", "129.99", "129.99", "100"⟩]).2 =
      .ok [] :=
  (C4_market_hours_filter "AAPL" "01/2021" "1min" ⟨2021, 2, 15, 10, 0, 0⟩
    [⟨"2021-01-04 20:00:00", "129.99", "129.99", "129.99", "129.99", "100"⟩] 1
    [⟨⟨2021, 1, 4, 20, 0, 0⟩, mkRat 12999 100, mkRat 12999 100,
      mkRat 12999 100, mkRat 12999 100, 100⟩]
    (by decide) (by decide)).2.2.2.1

/-- C3 (counterexample).  The topic error names the valid vocabulary, not
the offending set: for topics = ["not_a_topic"] the rejected request's error
carries the 14 valid topics, a list that does not contain "not_a_topic" and
differs from the offending set; moreover an empty-string sort — supplied
and outside EARLIEST/LATEST/RELEVANCE — raises no error, so the claim's
"exactly when" fails as stated. -/
theorem C3_counterexample :
    sentimentBuild ["MSFT"] ["not_a_topic"] none none none 200 =
      .error (.invalidTopics VALID_TOPICS) ∧
    "not_a_topic" ∉ VALID_TOPICS ∧ VALID_TOPICS ≠ ["not_a_topic"] ∧
    (sentimentBuild ["MSFT"] [] none none (some "") 200).isOk = true := by
  decide

/-- C3 (amended).  `get_stock_sentiment` raises an invalid-argument error
exactly when both tickers and topics are empty, or some supplied topic is
outside the fixed 14-value vocabulary — in which case the error names the
valid vocabulary, not the offending topics — or a supplied non-empty sort
is not one of EARLIEST/LATEST/RELEVANCE (an empty-string sort is skipped),
or limit > 200; in particular limit = 201 raises. -/
theorem C3_amended_invalid_argument_errors (tickers topics : List String)
    (tf tt sort : Option String) (limit : Int) :
    ((∃ e, sentimentBuild tickers topics tf tt sort limit = .error e ∧
        e.isInvalidArgKind = true) ↔
      ((tickers = [] ∧ topics = []) ∨ (∃ t ∈ topics, t ∉ VALID_TOPICS) ∨
       (∃ s, sort = some s ∧ s ≠ "" ∧ s ∉ sortWhitelist) ∨ 200 < limit)) ∧
    ((∃ t ∈ topics, t ∉ VALID_TOPICS) → ¬(tickers = [] ∧ topics = []) →
      sentimentBuild tickers topics tf tt sort limit =
        .error (.invalidTopics VALID_TOPICS)) ∧
    sentimentBuild ["AAPL"] [] none none none 201 =
      .error (.invalidArg "Limit must be less than or equal to 200") := by
  refine ⟨?_, ?_, by decide⟩
  · unfold sentimentBuild
    split_ifs with h1 h2 h3 h4
    · exact ⟨fun _ => Or.inl ((bothEmpty_iff _ _).mp h1), fun _ => ⟨_, rfl, rfl⟩⟩
    · exact ⟨fun _ => Or.inr (Or.inl ((badTopic_iff _).mp h2)), fun _ => ⟨_, rfl, rfl⟩⟩
    · exact ⟨fun _ => Or.inr (Or.inr (Or.inl ((sortInvalid_iff _).mp h3))),
        fun _ => ⟨_, rfl, rfl⟩⟩
    · exact ⟨fun _ => Or.inr (Or.inr (Or.inr (by simpa using h4))),
        fun _ => ⟨_, rfl, rfl⟩⟩
    · constructor
      · rintro ⟨e, he, hkind⟩
        exfalso
        cases hwf : wireDate tf with
        | error e2 =>
          rw [hwf] at he
          cases he
          obtain ⟨msg, rfl⟩ := wireDate_error hwf
          cases hkind
        | ok tf2 =>
          rw [hwf] at he
          cases hwt : wireDate tt with
          | error e2 =>
            rw [hwt] at he
            cases he
            obtain ⟨msg, rfl⟩ := wireDate_error hwt
            cases hkind
          | ok tt2 =>
            rw [hwt] at he
            cases he
      · rintro (h | h | h | h)
        · exact absurd ((bothEmpty_iff _ _).mpr h) h1
        · exact absurd ((badTopic_iff _).mpr h) h2
        · exact absurd ((sortInvalid_iff _).mpr h) h3
        · exact absurd (by simpa using h) h4
  · intro hbad hne
    unfold sentimentBuild
    rw [if_neg (fun hc => hne ((bothEmpty_iff _ _).mp hc)),
      if_pos ((badTopic_iff _).mpr hbad)]

/-- Witness for C3 (amended): an out-of-vocabulary topic is rejected with
the error that carries the valid vocabulary. -/
theorem C3_amended_invalid_argument_errors_witness :
    sentimentBuild [] ["not_a_topic"] none none none 200 =
      .error (.invalidTopics VALID_TOPICS) :=
  (C3_amended_invalid_argument_errors [] ["not_a_topic"] none none none 200).2.1
    ⟨"not_a_topic", by decide, by decide⟩ (by decide)

/-- C7 (confirmed).  For both operations, every validation error leaves the
effect trace empty — no HTTP GET is issued — and the GET is issued only
once the whole validation phase has succeeded. -/
theorem C7_validation_before_get (ticker date interval : String) (ah : Bool)
    (now : DateTime) (response : List RawRow) (tickers topics : List String)
    (tf tt sort : Option String) (limit : Int) :
    (∀ e, historyValidate date interval now = .error e →
      (get_stock_history ticker date interval ah now response).1 = []) ∧
    ((get_stock_history ticker date interval ah now response).1 ≠ [] →
      ∃ tmb, historyValidate date interval now = .ok tmb) ∧
    (∀ e, sentimentBuild tickers topics tf tt sort limit = .error e →
      (get_stock_sentiment tickers topics tf tt sort limit).1 = []) ∧
    ((get_stock_sentiment tickers topics tf tt sort limit).1 ≠ [] →
      ∃ ps, sentimentBuild tickers topics tf tt sort limit = .ok ps) := by
  refine ⟨?_, ?_, ?_, ?_⟩
  · intro e he
    simp only [get_stock_history, he]
  · simp only [get_stock_history]
    cases hv : historyValidate date interval now with
    | error e => simp
    | ok tmb => exact fun _ => ⟨tmb, rfl⟩
  · intro e he
    simp only [get_stock_sentiment, he]
  · simp only [get_stock_sentiment]
    cases hs : sentimentBuild tickers topics tf tt sort limit with
    | error e => simp
    | ok ps => exact fun _ => ⟨ps, rfl⟩

/-- Witness for C7: a malformed date issues no GET. -/
theorem C7_validation_before_get_witness :
    (get_stock_history "AAPL" "13/2024" "1min" false ⟨2026, 10, 12, 0, 0, 0⟩ []).1 = [] :=
  (C7_validation_before_get "AAPL" "13/2024" "1min" false ⟨2026, 10, 12, 0, 0, 0⟩ []
    [] [] none none none 200).1
    (.formatErr "Date must be in the form of MM/YYYY") (by decide)

/-- C8 (confirmed).  For any topic list drawn from the fixed vocabulary
(and tickers possibly empty when topics is non-empty), validation succeeds
with all other parameters at their defaults, and the query parameters carry
exactly those topics, comma-joined, in the order supplied — and no topics
parameter at all when the list is empty. -/
theorem C8_topics_roundtrip (tickers topics : List String)
    (hsub : ∀ t ∈ topics, t ∈ VALID_TOPICS)
    (hne : ¬(tickers = [] ∧ topics = [])) :
    ∃ ps, sentimentBuild tickers topics none none none 200 = .ok ps ∧
      (topics ≠ [] → ps.lookup "topics" = some (joinComma topics)) ∧
      (topics = [] → ps.lookup "topics" = none) := by
  have c1 : (tickers.isEmpty && topics.isEmpty) = false := by
    rw [Bool.eq_false_iff]
    intro hc
    exact hne ((bothEmpty_iff _ _).mp hc)
  have c2 : (!topics.isEmpty && !(topics.all fun t => VALID_TOPICS.contains t)) = false := by
    rw [Bool.eq_false_iff]
    intro hc
    obtain ⟨t, ht, hnot⟩ := (badTopic_iff _).mp hc
    exact hnot (hsub t ht)
  refine ⟨sentimentParams tickers topics none none none 200, ?_, ?_, ?_⟩
  · unfold sentimentBuild
    rw [c1, c2]
    rfl
  · intro hts
    have hte : topics.isEmpty = false := by simpa [List.isEmpty_iff] using hts
    unfold sentimentParams
    rw [hte]
    simp [List.lookup]
  · intro hts
    subst hts
    unfold sentimentParams
    cases htk : tickers.isEmpty <;> simp [List.lookup]

/-- Witness for C8: two vocabulary topics with no tickers round-trip as
"ipo,finance". -/
theorem C8_topics_roundtrip_witness :
    ∃ ps, sentimentBuild [] ["ipo", "finance"] none none none 200 = .ok ps ∧
      ((["ipo", "finance"] : List String) ≠ [] →
        ps.lookup "topics" = some (joinComma ["ipo", "finance"])) ∧
      ((["ipo", "finance"] : List String) = [] → ps.lookup "topics" = none) :=
  C8_topics_roundtrip [] ["ipo", "finance"] (by decide) (by decide)

/-- C9 (confirmed).  The limit check is an upper bound only: every integer
limit ≤ 200, including 0 and negatives, passes validation and is rendered
verbatim as the always-present final limit parameter; every limit > 200 is
rejected. -/
theorem C9_limit_upper_bound_only (limit : Int) :
    (limit ≤ 200 →
      sentimentBuild ["AAPL"] [] none none none limit =
        .ok [("function", "NEWS_SENTIMENT"), ("apikey", API_KEY),
             ("tickers", "AAPL"), ("limit", toString limit)]) ∧
    (200 < limit →
      sentimentBuild ["AAPL"] [] none none none limit =
        .error (.invalidArg "Limit must be less than or equal to 200")) := by
  constructor
  · intro h
    have hc : decide (limit > 200) = false := by
      simp only [decide_eq_false_iff_not, not_lt]
      omega
    unfold sentimentBuild
    rw [hc]
    rfl
  · intro h
    have hc : decide (limit > 200) = true := by simpa using h
    unfold sentimentBuild
    rw [hc]
    rfl

/-- Witness for C9: limit = -7 passes and is rendered as "-7". -/
theorem C9_limit_upper_bound_only_witness :
    sentimentBuild ["AAPL"] [] none none none (-7) =
      .ok [("function", "NEWS_SENTIMENT"), ("apikey", API_KEY),
           ("tickers", "AAPL"), ("limit", toString (-7 : Int))] :=
  (C9_limit_upper_bound_only (-7)).1 (by decide)

/-- C10 (confirmed).  An empty-string sort is treated as absent: the whole
request construction is identical to passing no sort, no error is raised,
and the query parameters carry no sort entry. -/
theorem C10_empty_sort_falsy (tickers topics : List String)
    (tf tt : Option String) (limit : Int) :
    sentimentBuild tickers topics tf tt (some "") limit =
      sentimentBuild tickers topics tf tt none limit ∧
    sentimentBuild ["AAPL"] [] none none (some "") 200 =
      .ok [("function", "NEWS_SENTIMENT"), ("apikey", API_KEY),
           ("tickers", "AAPL"), ("limit", "200")] ∧
    List.lookup "sort" [("function", "NEWS_SENTIMENT"), ("apikey", API_KEY),
      ("tickers", "AAPL"), (("limit" : String), ("200" : String))] = none :=
  ⟨rfl, by decide, by decide⟩

end Stonks
